import Mathlib

/-!
Shallow embedding of the position/trade lifecycle and risk engine of the
SolanaMultiDexSniperBot repository.  Go float64 fields are modelled as ℚ;
time-valued fields (timestamps, durations) are dropped except where a
claim needs them, in which case the already-elapsed duration is passed in
as a ℚ parameter.  Field and function names follow the Go source.
-/

/-- Status of a position, from the PositionStatus constants of the source. -/
inductive PositionStatus where
  | PositionStatusOpen
  | PositionStatusClosed
  | PositionStatusPartial
  | PositionStatusStopped
  | PositionStatusExpired
  | PositionStatusLiquidated
deriving DecidableEq, Repr

/-- Side of a position, long or short. -/
inductive PositionSide where
  | PositionSideLong
  | PositionSideShort
deriving DecidableEq, Repr

/-- One partial exit record; the timestamp, reason, trade id and tx hash of
the source struct are irrelevant to the arithmetic and are omitted. -/
structure PartialExit where
  Quantity : ℚ
  Price : ℚ
  Value : ℚ
  Fees : ℚ
  PnL : ℚ
  PnLPercent : ℚ
deriving DecidableEq, Repr

/-- One DCA entry record; timestamp, trade id, tx hash and strategy string
are omitted as they are never read by the modelled operations. -/
structure DCAEntry where
  Quantity : ℚ
  Price : ℚ
  Value : ℚ
  Fees : ℚ
deriving DecidableEq, Repr

/-- The Position model: the fields of the Go struct that the modelled
operations read or write.  Pointer fields become Option. -/
structure Position where
  Status : PositionStatus
  Side : PositionSide
  EntryPrice : ℚ
  EntryQuantity : ℚ
  EntryValue : ℚ
  EntryFees : ℚ
  CurrentPrice : ℚ
  CurrentQuantity : ℚ
  CurrentValue : ℚ
  ExitValue : Option ℚ
  StopLoss : Option ℚ
  TakeProfit : Option ℚ
  TrailingStop : Option ℚ
  TrailingStopPrice : Option ℚ
  UnrealizedPnL : ℚ
  UnrealizedPnLPercent : ℚ
  RealizedPnL : ℚ
  RealizedPnLPercent : ℚ
  TotalFees : ℚ
  ROI : ℚ
  HighestValue : ℚ
  LowestValue : ℚ
  HighestPrice : ℚ
  LowestPrice : ℚ
  MaxDrawdown : ℚ
  MaxGainPercent : ℚ
  PartialExits : List PartialExit
  DCAEntries : List DCAEntry
deriving DecidableEq, Repr

/-- Translation of updatePerformanceMetrics: recomputes unrealized PnL and
ROI for an open position, or realized PnL for a closed position with an
exit value; the percent and ROI updates are guarded by EntryValue being
nonzero, leaving the old value in place otherwise, exactly as the source. -/
def updatePerformanceMetrics (p : Position) : Position :=
  if p.Status = PositionStatus.PositionStatusOpen then
    let upnl := (p.CurrentPrice - p.EntryPrice) * p.CurrentQuantity
    let upct := if p.EntryValue ≠ 0 then (upnl / p.EntryValue) * 100 else p.UnrealizedPnLPercent
    let roi := if p.EntryValue ≠ 0 then
        ((p.CurrentValue - p.EntryValue - p.TotalFees) / p.EntryValue) * 100
      else p.ROI
    { p with UnrealizedPnL := upnl, UnrealizedPnLPercent := upct, ROI := roi }
  else
    match p.ExitValue with
    | some ev =>
      if p.Status = PositionStatus.PositionStatusClosed then
        let rpnl := ev - p.EntryValue - p.TotalFees
        let rpct := if p.EntryValue ≠ 0 then (rpnl / p.EntryValue) * 100 else p.RealizedPnLPercent
        let roi := if p.EntryValue ≠ 0 then (rpnl / p.EntryValue) * 100 else p.ROI
        { p with RealizedPnL := rpnl, RealizedPnLPercent := rpct, ROI := roi }
      else p
    | none => p

/-- Translation of updateTrackingValues: pushes the highest/lowest price and
value trackers outward, then recomputes max drawdown against the updated
peak value and max gain against the entry value, each only ever raised. -/
def updateTrackingValues (p : Position) : Position :=
  let hv := if p.CurrentValue > p.HighestValue then p.CurrentValue else p.HighestValue
  let hp := if p.CurrentPrice > p.HighestPrice then p.CurrentPrice else p.HighestPrice
  let lv := if p.CurrentValue < p.LowestValue then p.CurrentValue else p.LowestValue
  let lp := if p.CurrentPrice < p.LowestPrice then p.CurrentPrice else p.LowestPrice
  let md := if hv > 0 then
      let drawdown := ((hv - p.CurrentValue) / hv) * 100
      if drawdown > p.MaxDrawdown then drawdown else p.MaxDrawdown
    else p.MaxDrawdown
  let mg := if p.EntryValue > 0 then
      let maxGain := ((hv - p.EntryValue) / p.EntryValue) * 100
      if maxGain > p.MaxGainPercent then maxGain else p.MaxGainPercent
    else p.MaxGainPercent
  { p with HighestValue := hv, HighestPrice := hp, LowestValue := lv, LowestPrice := lp,
           MaxDrawdown := md, MaxGainPercent := mg }

/-- Translation of UpdateCurrentPrice: stores the new price, recomputes the
current value from the remaining quantity, then runs the performance and
tracking recomputations (LastPriceUpdate, a timestamp, is dropped). -/
def UpdateCurrentPrice (p : Position) (price : ℚ) : Position :=
  let p := { p with CurrentPrice := price, CurrentValue := price * p.CurrentQuantity }
  updateTrackingValues (updatePerformanceMetrics p)

/-- Translation of UpdateTrailingStop: a no-op unless a trailing-stop
percentage is set and the position is open; for a long position the stop
price is replaced only when the candidate price is strictly higher, for a
short position only when strictly lower. -/
def UpdateTrailingStop (p : Position) : Position :=
  match p.TrailingStop with
  | none => p
  | some ts =>
    if p.Status ≠ PositionStatus.PositionStatusOpen then p
    else
      let trailingPercent := ts / 100
      match p.Side with
      | PositionSide.PositionSideLong =>
        let newStopPrice := p.CurrentPrice * (1 - trailingPercent)
        match p.TrailingStopPrice with
        | none => { p with TrailingStopPrice := some newStopPrice }
        | some old =>
          if newStopPrice > old then { p with TrailingStopPrice := some newStopPrice } else p
      | PositionSide.PositionSideShort =>
        let newStopPrice := p.CurrentPrice * (1 + trailingPercent)
        match p.TrailingStopPrice with
        | none => { p with TrailingStopPrice := some newStopPrice }
        | some old =>
          if newStopPrice < old then { p with TrailingStopPrice := some newStopPrice } else p

/-- Translation of AddPartialExit: appends the exit, decrements the current
quantity, recomputes the current value, accumulates the exit PnL, then
clamps to a closed position when the residual quantity is not positive,
and otherwise marks the position partial (the source guards this on the
exit list being nonempty, which after the append it always is). -/
def AddPartialExit (p : Position) (e : PartialExit) : Position :=
  let exits := p.PartialExits ++ [e]
  let cq := p.CurrentQuantity - e.Quantity
  let cv := p.CurrentPrice * cq
  let rpnl := p.RealizedPnL + e.PnL
  if cq ≤ 0 then
    { p with PartialExits := exits, CurrentQuantity := 0, CurrentValue := 0,
             RealizedPnL := rpnl, Status := PositionStatus.PositionStatusClosed }
  else if exits.length > 0 then
    { p with PartialExits := exits, CurrentQuantity := cq, CurrentValue := cv,
             RealizedPnL := rpnl, Status := PositionStatus.PositionStatusPartial }
  else
    { p with PartialExits := exits, CurrentQuantity := cq, CurrentValue := cv,
             RealizedPnL := rpnl }

/-- Translation of AddDCAEntry: appends the entry, recomputes the
quantity-weighted average entry price, grows the entry aggregates, sets the
current quantity to the new total quantity, and accumulates entry fees. -/
def AddDCAEntry (p : Position) (entry : DCAEntry) : Position :=
  let totalValue := p.EntryValue + entry.Value
  let totalQuantity := p.EntryQuantity + entry.Quantity
  { p with DCAEntries := p.DCAEntries ++ [entry],
           EntryPrice := totalValue / totalQuantity,
           EntryQuantity := totalQuantity,
           EntryValue := totalValue,
           CurrentQuantity := totalQuantity,
           EntryFees := p.EntryFees + entry.Fees }

/-- A freshly opened position as produced by creation plus the BeforeCreate
hook of the source: current price/quantity/value and the four trackers are
seeded from the entry values, everything else is zero or empty. -/
def freshPosition (side : PositionSide) (price quantity : ℚ) : Position :=
  { Status := PositionStatus.PositionStatusOpen
    Side := side
    EntryPrice := price
    EntryQuantity := quantity
    EntryValue := price * quantity
    EntryFees := 0
    CurrentPrice := price
    CurrentQuantity := quantity
    CurrentValue := price * quantity
    ExitValue := none
    StopLoss := none
    TakeProfit := none
    TrailingStop := none
    TrailingStopPrice := none
    UnrealizedPnL := 0
    UnrealizedPnLPercent := 0
    RealizedPnL := 0
    RealizedPnLPercent := 0
    TotalFees := 0
    ROI := 0
    HighestValue := price * quantity
    LowestValue := price * quantity
    HighestPrice := price
    LowestPrice := price
    MaxDrawdown := 0
    MaxGainPercent := 0
    PartialExits := []
    DCAEntries := [] }

/-- Sum of the quantities of a list of partial exits. -/
def exitQuantitySum (exits : List PartialExit) : ℚ :=
  (exits.map PartialExit.Quantity).sum

/-- The position operations a caller can interleave: price ticks, partial
exits, and DCA entries. -/
inductive PosOp where
  | priceTick (price : ℚ)
  | pexit (e : PartialExit)
  | dca (entry : DCAEntry)
deriving DecidableEq, Repr

/-- Applies one operation to a position. -/
def applyOp (p : Position) : PosOp → Position
  | PosOp.priceTick price => UpdateCurrentPrice p price
  | PosOp.pexit e => AddPartialExit p e
  | PosOp.dca entry => AddDCAEntry p entry

/-- Applies a sequence of operations, oldest first. -/
def applyOps (p : Position) (ops : List PosOp) : Position :=
  ops.foldl applyOp p

/-- Applies a sequence of price updates, oldest first. -/
def applyPrices (p : Position) (prices : List ℚ) : Position :=
  prices.foldl UpdateCurrentPrice p

/-- Applies a sequence of price updates, each followed by a trailing-stop
recomputation, as the price feed does for a position with a trailing stop. -/
def applyPricesTrailing (p : Position) (prices : List ℚ) : Position :=
  prices.foldl (fun q price => UpdateTrailingStop (UpdateCurrentPrice q price)) p

/-- Side of a trade, buy or sell. -/
inductive TradeSide where
  | TradeSideBuy
  | TradeSideSell
deriving DecidableEq, Repr

/-- Lifecycle status of a trade, from the TradeStatus constants. -/
inductive TradeStatus where
  | TradeStatusPending
  | TradeStatusSubmitted
  | TradeStatusExecuted
  | TradeStatusConfirmed
  | TradeStatusFailed
  | TradeStatusCancelled
  | TradeStatusPartial
  | TradeStatusExpired
deriving DecidableEq, Repr

/-- The Trade model: the fields of the Go struct read by the modelled trade
methods.  Price is the requested price; RetryCount and MaxRetries are Go
ints, modelled as ℤ. -/
structure Trade where
  Side : TradeSide
  Status : TradeStatus
  Price : ℚ
  ExecutedPrice : ℚ
  RetryCount : ℤ
  MaxRetries : ℤ
deriving DecidableEq, Repr

/-- Translation of CalculateActualSlippage: zero when either the requested
or the executed price is zero, otherwise the signed relative difference in
percent, with the sign convention flipped for sells. -/
def CalculateActualSlippage (t : Trade) : ℚ :=
  if t.Price = 0 ∨ t.ExecutedPrice = 0 then 0
  else if t.Side = TradeSide.TradeSideBuy then
    ((t.ExecutedPrice - t.Price) / t.Price) * 100
  else
    ((t.Price - t.ExecutedPrice) / t.Price) * 100

/-- Translation of CanRetry: the trade failed and the retry counter is
below its limit. -/
def CanRetry (t : Trade) : Bool :=
  decide (t.Status = TradeStatus.TradeStatusFailed) && decide (t.RetryCount < t.MaxRetries)

/-- Audit status of a token contract. -/
inductive AuditStatus where
  | AuditNotAudited
  | AuditPending
  | AuditPassed
  | AuditFailed
  | AuditPartial
deriving DecidableEq, Repr

/-- The six ordered risk bands. -/
inductive RiskLevel where
  | RiskLevelVeryLow
  | RiskLevelLow
  | RiskLevelMedium
  | RiskLevelHigh
  | RiskLevelVeryHigh
  | RiskLevelExtreme
deriving DecidableEq, Repr

/-- Security assessment fields of a token read by the risk scorer. -/
structure SecurityInfo where
  HoneypotRisk : Bool
  LiquidityLocked : Bool
  OwnershipRenounced : Bool
  AuditStatus : AuditStatus
deriving DecidableEq, Repr

/-- Social presence fields of a token read by the risk scorer. -/
structure SocialInfo where
  SocialScore : ℚ
deriving DecidableEq, Repr

/-- One liquidity pool; only its total liquidity is read. -/
structure LiquidityPool where
  TotalLiquidity : ℚ
deriving DecidableEq, Repr

/-- The Token model: the fields read or written by calculateRiskScore and
updateRiskLevel.  The source compares time.Since(LaunchDate) against 24h
and 7×24h; that elapsed duration is modelled as LaunchAgeHours, the age in
hours at scoring time (none when LaunchDate is nil).  HolderCount is a Go
int, modelled as ℤ. -/
structure Token where
  MarketCap : ℚ
  LaunchAgeHours : Option ℚ
  LiquidityPools : List LiquidityPool
  HolderCount : ℤ
  VolatilityScore : ℚ
  SecurityInfo : SecurityInfo
  SocialInfo : SocialInfo
  RiskScore : ℚ
  RiskLevel : RiskLevel
deriving DecidableEq, Repr

/-- Translation of getTotalLiquidity: total liquidity across all pools. -/
def getTotalLiquidity (t : Token) : ℚ :=
  t.LiquidityPools.foldl (fun total pool => total + pool.TotalLiquidity) 0

/-- The additive risk model of calculateRiskScore before the final clamp:
a baseline of 5 plus the fixed per-signal deltas of the source. -/
def riskScoreRaw (t : Token) : ℚ :=
  let score : ℚ := 5
  let score := if t.SecurityInfo.HoneypotRisk then score + 3 else score
  let score := if ¬ t.SecurityInfo.LiquidityLocked then score + 2 else score
  let score := if ¬ t.SecurityInfo.OwnershipRenounced then score + 1.5 else score
  let score := if t.MarketCap < 10000 then score + 2
    else if t.MarketCap < 100000 then score + 1 else score
  let score := if t.VolatilityScore > 80 then score + 1.5
    else if t.VolatilityScore > 60 then score + 1 else score
  let score := match t.LaunchAgeHours with
    | some age => if age < 24 then score + 2 else if age < 7 * 24 then score + 1 else score
    | none => score
  let totalLiquidity := getTotalLiquidity t
  let score := if totalLiquidity < 1 then score + 3
    else if totalLiquidity < 10 then score + 2
    else if totalLiquidity < 100 then score + 1 else score
  let score := if t.HolderCount < 10 then score + 2
    else if t.HolderCount < 100 then score + 1 else score
  let score := match t.SecurityInfo.AuditStatus with
    | AuditStatus.AuditPassed => score - 1
    | AuditStatus.AuditFailed => score + 2
    | AuditStatus.AuditNotAudited => score + 0.5
    | _ => score
  if t.SocialInfo.SocialScore < 3 then score + 1
  else if t.SocialInfo.SocialScore > 7 then score - 0.5 else score

/-- Translation of calculateRiskScore: the additive model clamped to the
interval from 0 to 10, stored in the RiskScore field. -/
def calculateRiskScore (t : Token) : Token :=
  let score := riskScoreRaw t
  let score := if score < 0 then 0 else if score > 10 then 10 else score
  { t with RiskScore := score }

/-- Translation of updateRiskLevel: the fixed six-band threshold table
mapping the stored risk score to a risk level. -/
def updateRiskLevel (t : Token) : Token :=
  { t with RiskLevel :=
      if t.RiskScore ≤ 2 then RiskLevel.RiskLevelVeryLow
      else if t.RiskScore ≤ 4 then RiskLevel.RiskLevelLow
      else if t.RiskScore ≤ 6 then RiskLevel.RiskLevelMedium
      else if t.RiskScore ≤ 8 then RiskLevel.RiskLevelHigh
      else if t.RiskScore ≤ 9 then RiskLevel.RiskLevelVeryHigh
      else RiskLevel.RiskLevelExtreme }

/-- Rank of a risk level in the six ordered bands, lowest risk first. -/
def riskLevelIndex : RiskLevel → ℕ
  | RiskLevel.RiskLevelVeryLow => 0
  | RiskLevel.RiskLevelLow => 1
  | RiskLevel.RiskLevelMedium => 2
  | RiskLevel.RiskLevelHigh => 3
  | RiskLevel.RiskLevelVeryHigh => 4
  | RiskLevel.RiskLevelExtreme => 5

section ProjectionLemmas

@[simp] lemma upm_Status (p : Position) :
    (updatePerformanceMetrics p).Status = p.Status := by
  unfold updatePerformanceMetrics; (repeat' split) <;> rfl

@[simp] lemma upm_Side (p : Position) :
    (updatePerformanceMetrics p).Side = p.Side := by
  unfold updatePerformanceMetrics; (repeat' split) <;> rfl

@[simp] lemma upm_EntryPrice (p : Position) :
    (updatePerformanceMetrics p).EntryPrice = p.EntryPrice := by
  unfold updatePerformanceMetrics; (repeat' split) <;> rfl

@[simp] lemma upm_EntryQuantity (p : Position) :
    (updatePerformanceMetrics p).EntryQuantity = p.EntryQuantity := by
  unfold updatePerformanceMetrics; (repeat' split) <;> rfl

@[simp] lemma upm_EntryValue (p : Position) :
    (updatePerformanceMetrics p).EntryValue = p.EntryValue := by
  unfold updatePerformanceMetrics; (repeat' split) <;> rfl

@[simp] lemma upm_CurrentPrice (p : Position) :
    (updatePerformanceMetrics p).CurrentPrice = p.CurrentPrice := by
  unfold updatePerformanceMetrics; (repeat' split) <;> rfl

@[simp] lemma upm_CurrentQuantity (p : Position) :
    (updatePerformanceMetrics p).CurrentQuantity = p.CurrentQuantity := by
  unfold updatePerformanceMetrics; (repeat' split) <;> rfl

@[simp] lemma upm_CurrentValue (p : Position) :
    (updatePerformanceMetrics p).CurrentValue = p.CurrentValue := by
  unfold updatePerformanceMetrics; (repeat' split) <;> rfl

@[simp] lemma upm_TrailingStop (p : Position) :
    (updatePerformanceMetrics p).TrailingStop = p.TrailingStop := by
  unfold updatePerformanceMetrics; (repeat' split) <;> rfl

@[simp] lemma upm_TrailingStopPrice (p : Position) :
    (updatePerformanceMetrics p).TrailingStopPrice = p.TrailingStopPrice := by
  unfold updatePerformanceMetrics; (repeat' split) <;> rfl

@[simp] lemma upm_PartialExits (p : Position) :
    (updatePerformanceMetrics p).PartialExits = p.PartialExits := by
  unfold updatePerformanceMetrics; (repeat' split) <;> rfl

@[simp] lemma upm_HighestValue (p : Position) :
    (updatePerformanceMetrics p).HighestValue = p.HighestValue := by
  unfold updatePerformanceMetrics; (repeat' split) <;> rfl

@[simp] lemma upm_HighestPrice (p : Position) :
    (updatePerformanceMetrics p).HighestPrice = p.HighestPrice := by
  unfold updatePerformanceMetrics; (repeat' split) <;> rfl

@[simp] lemma upm_LowestValue (p : Position) :
    (updatePerformanceMetrics p).LowestValue = p.LowestValue := by
  unfold updatePerformanceMetrics; (repeat' split) <;> rfl

@[simp] lemma upm_LowestPrice (p : Position) :
    (updatePerformanceMetrics p).LowestPrice = p.LowestPrice := by
  unfold updatePerformanceMetrics; (repeat' split) <;> rfl

@[simp] lemma upm_MaxDrawdown (p : Position) :
    (updatePerformanceMetrics p).MaxDrawdown = p.MaxDrawdown := by
  unfold updatePerformanceMetrics; (repeat' split) <;> rfl

@[simp] lemma upm_UnrealizedPnL_of_open (p : Position)
    (h : p.Status = PositionStatus.PositionStatusOpen) :
    (updatePerformanceMetrics p).UnrealizedPnL
      = (p.CurrentPrice - p.EntryPrice) * p.CurrentQuantity := by
  unfold updatePerformanceMetrics
  simp [h]

@[simp] lemma utv_Status (p : Position) :
    (updateTrackingValues p).Status = p.Status := rfl

@[simp] lemma utv_Side (p : Position) :
    (updateTrackingValues p).Side = p.Side := rfl

@[simp] lemma utv_EntryPrice (p : Position) :
    (updateTrackingValues p).EntryPrice = p.EntryPrice := rfl

@[simp] lemma utv_EntryQuantity (p : Position) :
    (updateTrackingValues p).EntryQuantity = p.EntryQuantity := rfl

@[simp] lemma utv_EntryValue (p : Position) :
    (updateTrackingValues p).EntryValue = p.EntryValue := rfl

@[simp] lemma utv_CurrentPrice (p : Position) :
    (updateTrackingValues p).CurrentPrice = p.CurrentPrice := rfl

@[simp] lemma utv_CurrentQuantity (p : Position) :
    (updateTrackingValues p).CurrentQuantity = p.CurrentQuantity := rfl

@[simp] lemma utv_CurrentValue (p : Position) :
    (updateTrackingValues p).CurrentValue = p.CurrentValue := rfl

@[simp] lemma utv_TrailingStop (p : Position) :
    (updateTrackingValues p).TrailingStop = p.TrailingStop := rfl

@[simp] lemma utv_TrailingStopPrice (p : Position) :
    (updateTrackingValues p).TrailingStopPrice = p.TrailingStopPrice := rfl

@[simp] lemma utv_PartialExits (p : Position) :
    (updateTrackingValues p).PartialExits = p.PartialExits := rfl

@[simp] lemma utv_UnrealizedPnL (p : Position) :
    (updateTrackingValues p).UnrealizedPnL = p.UnrealizedPnL := rfl

lemma utv_HighestValue (p : Position) :
    (updateTrackingValues p).HighestValue
      = if p.CurrentValue > p.HighestValue then p.CurrentValue else p.HighestValue := rfl

lemma utv_HighestPrice (p : Position) :
    (updateTrackingValues p).HighestPrice
      = if p.CurrentPrice > p.HighestPrice then p.CurrentPrice else p.HighestPrice := rfl

lemma utv_LowestValue (p : Position) :
    (updateTrackingValues p).LowestValue
      = if p.CurrentValue < p.LowestValue then p.CurrentValue else p.LowestValue := rfl

lemma utv_LowestPrice (p : Position) :
    (updateTrackingValues p).LowestPrice
      = if p.CurrentPrice < p.LowestPrice then p.CurrentPrice else p.LowestPrice := rfl

lemma utv_MaxDrawdown (p : Position) :
    (updateTrackingValues p).MaxDrawdown
      = if (updateTrackingValues p).HighestValue > 0 then
          let drawdown :=
            (((updateTrackingValues p).HighestValue - p.CurrentValue)
              / (updateTrackingValues p).HighestValue) * 100
          if drawdown > p.MaxDrawdown then drawdown else p.MaxDrawdown
        else p.MaxDrawdown := rfl

@[simp] lemma ucp_Status (p : Position) (price : ℚ) :
    (UpdateCurrentPrice p price).Status = p.Status := by
  unfold UpdateCurrentPrice; simp

@[simp] lemma ucp_Side (p : Position) (price : ℚ) :
    (UpdateCurrentPrice p price).Side = p.Side := by
  unfold UpdateCurrentPrice; simp

@[simp] lemma ucp_EntryPrice (p : Position) (price : ℚ) :
    (UpdateCurrentPrice p price).EntryPrice = p.EntryPrice := by
  unfold UpdateCurrentPrice; simp

@[simp] lemma ucp_EntryQuantity (p : Position) (price : ℚ) :
    (UpdateCurrentPrice p price).EntryQuantity = p.EntryQuantity := by
  unfold UpdateCurrentPrice; simp

@[simp] lemma ucp_CurrentPrice (p : Position) (price : ℚ) :
    (UpdateCurrentPrice p price).CurrentPrice = price := by
  unfold UpdateCurrentPrice; simp

@[simp] lemma ucp_CurrentQuantity (p : Position) (price : ℚ) :
    (UpdateCurrentPrice p price).CurrentQuantity = p.CurrentQuantity := by
  unfold UpdateCurrentPrice; simp

@[simp] lemma ucp_CurrentValue (p : Position) (price : ℚ) :
    (UpdateCurrentPrice p price).CurrentValue = price * p.CurrentQuantity := by
  unfold UpdateCurrentPrice; simp

@[simp] lemma ucp_TrailingStop (p : Position) (price : ℚ) :
    (UpdateCurrentPrice p price).TrailingStop = p.TrailingStop := by
  unfold UpdateCurrentPrice; simp

@[simp] lemma ucp_TrailingStopPrice (p : Position) (price : ℚ) :
    (UpdateCurrentPrice p price).TrailingStopPrice = p.TrailingStopPrice := by
  unfold UpdateCurrentPrice; simp

@[simp] lemma ucp_PartialExits (p : Position) (price : ℚ) :
    (UpdateCurrentPrice p price).PartialExits = p.PartialExits := by
  unfold UpdateCurrentPrice; simp

@[simp] lemma uts_Side (p : Position) :
    (UpdateTrailingStop p).Side = p.Side := by
  unfold UpdateTrailingStop; (repeat' (first | rfl | split | dsimp only))

@[simp] lemma uts_Status (p : Position) :
    (UpdateTrailingStop p).Status = p.Status := by
  unfold UpdateTrailingStop; (repeat' (first | rfl | split | dsimp only))

@[simp] lemma uts_CurrentQuantity (p : Position) :
    (UpdateTrailingStop p).CurrentQuantity = p.CurrentQuantity := by
  unfold UpdateTrailingStop; (repeat' (first | rfl | split | dsimp only))

@[simp] lemma uts_CurrentPrice (p : Position) :
    (UpdateTrailingStop p).CurrentPrice = p.CurrentPrice := by
  unfold UpdateTrailingStop; (repeat' (first | rfl | split | dsimp only))

@[simp] lemma uts_TrailingStop (p : Position) :
    (UpdateTrailingStop p).TrailingStop = p.TrailingStop := by
  unfold UpdateTrailingStop; (repeat' (first | rfl | split | dsimp only))

lemma uts_long_eq (p : Position) (ts old : ℚ)
    (hstatus : p.Status = PositionStatus.PositionStatusOpen)
    (hts : p.TrailingStop = some ts)
    (hprev : p.TrailingStopPrice = some old)
    (hside : p.Side = PositionSide.PositionSideLong) :
    (UpdateTrailingStop p).TrailingStopPrice
      = some (max old (p.CurrentPrice * (1 - ts / 100))) := by
  unfold UpdateTrailingStop
  rw [hts]
  simp only [hstatus, hside, hprev]
  rcases le_or_lt (p.CurrentPrice * (1 - ts / 100)) old with hle | hlt
  · rw [max_eq_left hle]
    simp only [not_lt.mpr hle]
    split <;> simp_all
  · rw [max_eq_right (le_of_lt hlt)]
    simp only [hlt]
    split <;> simp_all

lemma uts_short_eq (p : Position) (ts old : ℚ)
    (hstatus : p.Status = PositionStatus.PositionStatusOpen)
    (hts : p.TrailingStop = some ts)
    (hprev : p.TrailingStopPrice = some old)
    (hside : p.Side = PositionSide.PositionSideShort) :
    (UpdateTrailingStop p).TrailingStopPrice
      = some (min old (p.CurrentPrice * (1 + ts / 100))) := by
  unfold UpdateTrailingStop
  rw [hts]
  simp only [hstatus, hside, hprev]
  rcases le_or_lt old (p.CurrentPrice * (1 + ts / 100)) with hle | hlt
  · rw [min_eq_left hle]
    simp only [not_lt.mpr hle]
    split <;> simp_all
  · rw [min_eq_right (le_of_lt hlt)]
    simp only [hlt]
    split <;> simp_all

lemma uts_long_ratchet (p : Position) (old : ℚ)
    (hside : p.Side = PositionSide.PositionSideLong)
    (hprev : p.TrailingStopPrice = some old) :
    ∃ n, (UpdateTrailingStop p).TrailingStopPrice = some n ∧ old ≤ n := by
  unfold UpdateTrailingStop
  cases hts : p.TrailingStop with
  | none => exact ⟨old, hprev, le_refl old⟩
  | some ts =>
    by_cases hstatus : p.Status = PositionStatus.PositionStatusOpen
    · simp only [hstatus, hside, hprev, ne_eq, not_true_eq_false, if_false]
      by_cases hgt : p.CurrentPrice * (1 - ts / 100) > old
      · exact ⟨p.CurrentPrice * (1 - ts / 100), by simp [hgt], le_of_lt hgt⟩
      · exact ⟨old, by simp [hgt, hprev], le_refl old⟩
    · simp only [ne_eq, hstatus, not_false_eq_true, if_true]
      exact ⟨old, hprev, le_refl old⟩

lemma trailing_step_ratchet (p : Position) (price old : ℚ)
    (hside : p.Side = PositionSide.PositionSideLong)
    (hprev : p.TrailingStopPrice = some old) :
    ∃ n, (UpdateTrailingStop (UpdateCurrentPrice p price)).TrailingStopPrice = some n ∧
      old ≤ n := by
  have hside2 : (UpdateCurrentPrice p price).Side = PositionSide.PositionSideLong := by
    rw [ucp_Side, hside]
  have hprev2 : (UpdateCurrentPrice p price).TrailingStopPrice = some old := by
    rw [ucp_TrailingStopPrice, hprev]
  exact uts_long_ratchet _ old hside2 hprev2

lemma trailing_trace_ratchet (prices : List ℚ) :
    ∀ (p : Position) (old : ℚ), p.Side = PositionSide.PositionSideLong →
      p.TrailingStopPrice = some old →
      ∃ n, (applyPricesTrailing p prices).TrailingStopPrice = some n ∧ old ≤ n := by
  induction prices with
  | nil => exact fun p old _ hprev => ⟨old, hprev, le_refl old⟩
  | cons price rest ih =>
    intro p old hside hprev
    obtain ⟨m, hm, hom⟩ := trailing_step_ratchet p price old hside hprev
    have hside2 : (UpdateTrailingStop (UpdateCurrentPrice p price)).Side
        = PositionSide.PositionSideLong := by
      rw [uts_Side, ucp_Side, hside]
    obtain ⟨n, hn, hmn⟩ := ih (UpdateTrailingStop (UpdateCurrentPrice p price)) m hside2 hm
    exact ⟨n, hn, le_trans hom hmn⟩

lemma exitQuantitySum_append (l : List PartialExit) (e : PartialExit) :
    exitQuantitySum (l ++ [e]) = exitQuantitySum l + e.Quantity := by
  simp [exitQuantitySum]

lemma ape_of_clamp (p : Position) (e : PartialExit)
    (h : p.CurrentQuantity - e.Quantity ≤ 0) :
    AddPartialExit p e
      = { p with PartialExits := p.PartialExits ++ [e], CurrentQuantity := 0,
                 CurrentValue := 0, RealizedPnL := p.RealizedPnL + e.PnL,
                 Status := PositionStatus.PositionStatusClosed } := by
  unfold AddPartialExit
  simp [h]

lemma ape_of_residual (p : Position) (e : PartialExit)
    (h : 0 < p.CurrentQuantity - e.Quantity) :
    AddPartialExit p e
      = { p with PartialExits := p.PartialExits ++ [e],
                 CurrentQuantity := p.CurrentQuantity - e.Quantity,
                 CurrentValue := p.CurrentPrice * (p.CurrentQuantity - e.Quantity),
                 RealizedPnL := p.RealizedPnL + e.PnL,
                 Status := PositionStatus.PositionStatusPartial } := by
  unfold AddPartialExit
  rw [if_neg (not_le.mpr h), if_pos]
  simp

@[simp] lemma adca_CurrentQuantity (p : Position) (entry : DCAEntry) :
    (AddDCAEntry p entry).CurrentQuantity = p.EntryQuantity + entry.Quantity := rfl

@[simp] lemma adca_EntryQuantity (p : Position) (entry : DCAEntry) :
    (AddDCAEntry p entry).EntryQuantity = p.EntryQuantity + entry.Quantity := rfl

@[simp] lemma adca_Status (p : Position) (entry : DCAEntry) :
    (AddDCAEntry p entry).Status = p.Status := rfl

@[simp] lemma adca_PartialExits (p : Position) (entry : DCAEntry) :
    (AddDCAEntry p entry).PartialExits = p.PartialExits := rfl

/-- The state invariant of a position driven only by price ticks and
positive-quantity partial exits: its status stays in the open, partial, or
closed band; a closed position has no remaining quantity; and while the
position is open or partial the residual quantity is positive and the
exited quantity plus the residual equals the entry quantity. -/
def PosInv (p : Position) : Prop :=
  (p.Status = PositionStatus.PositionStatusOpen ∨
   p.Status = PositionStatus.PositionStatusPartial ∨
   p.Status = PositionStatus.PositionStatusClosed) ∧
  (p.Status = PositionStatus.PositionStatusClosed → p.CurrentQuantity = 0) ∧
  ((p.Status = PositionStatus.PositionStatusOpen ∨
    p.Status = PositionStatus.PositionStatusPartial) →
      0 < p.CurrentQuantity ∧
      exitQuantitySum p.PartialExits + p.CurrentQuantity = p.EntryQuantity)

lemma posInv_fresh (side : PositionSide) (price qty : ℚ) (h : 0 < qty) :
    PosInv (freshPosition side price qty) := by
  refine ⟨Or.inl rfl, ?_, ?_⟩
  · intro hc
    exact absurd hc (by simp [freshPosition])
  · intro _
    exact ⟨h, by simp [freshPosition, exitQuantitySum]⟩

lemma posInv_ucp (p : Position) (price : ℚ) (h : PosInv p) :
    PosInv (UpdateCurrentPrice p price) := by
  obtain ⟨h1, h2, h3⟩ := h
  refine ⟨?_, ?_, ?_⟩ <;> simp only [ucp_Status, ucp_CurrentQuantity, ucp_PartialExits,
    ucp_EntryQuantity]
  · exact h1
  · exact h2
  · exact h3

lemma posInv_ape (p : Position) (e : PartialExit) (h : PosInv p)
    (hq : 0 < e.Quantity) : PosInv (AddPartialExit p e) := by
  obtain ⟨h1, h2, h3⟩ := h
  rcases le_or_lt (p.CurrentQuantity - e.Quantity) 0 with hcl | hres
  · rw [ape_of_clamp p e hcl]
    exact ⟨Or.inr (Or.inr rfl), fun _ => rfl, fun hcon => by simp at hcon⟩
  · rw [ape_of_residual p e hres]
    refine ⟨Or.inr (Or.inl rfl), fun hcon => by simp at hcon, fun _ => ⟨hres, ?_⟩⟩
    have hps : p.Status = PositionStatus.PositionStatusOpen ∨
        p.Status = PositionStatus.PositionStatusPartial := by
      rcases h1 with h | h | h
      · exact Or.inl h
      · exact Or.inr h
      · exfalso
        have := h2 h
        linarith
    obtain ⟨-, hsum⟩ := h3 hps
    simp only [exitQuantitySum_append]
    linarith

lemma posInv_applyOps (ops : List PosOp) :
    ∀ p : Position, PosInv p →
      (∀ e, PosOp.pexit e ∈ ops → 0 < e.Quantity) →
      (∀ entry, PosOp.dca entry ∉ ops) →
      PosInv (applyOps p ops) := by
  induction ops with
  | nil => exact fun p h _ _ => h
  | cons op rest ih =>
    intro p h hex hdca
    have hrest : ∀ e, PosOp.pexit e ∈ rest → 0 < e.Quantity :=
      fun e he => hex e (List.mem_cons_of_mem op he)
    have hdrest : ∀ entry, PosOp.dca entry ∉ rest :=
      fun entry he => hdca entry (List.mem_cons_of_mem op he)
    have hstep : PosInv (applyOp p op) := by
      cases op with
      | priceTick price => exact posInv_ucp p price h
      | pexit e => exact posInv_ape p e h (hex e (List.mem_cons_self _ _))
      | dca entry => exact absurd (List.mem_cons_self _ _) (hdca entry)
    simpa [applyOps] using ih (applyOp p op) hstep hrest hdrest

lemma posInv_zero_iff_closed (p : Position) (h : PosInv p) :
    p.CurrentQuantity = 0 ↔ p.Status = PositionStatus.PositionStatusClosed := by
  obtain ⟨h1, h2, h3⟩ := h
  constructor
  · intro hz
    rcases h1 with hs | hs | hs
    · exact absurd hz (by have := (h3 (Or.inl hs)).1; linarith)
    · exact absurd hz (by have := (h3 (Or.inr hs)).1; linarith)
    · exact hs
  · exact h2

lemma ucp_HighestPrice (p : Position) (price : ℚ) :
    (UpdateCurrentPrice p price).HighestPrice
      = if price > p.HighestPrice then price else p.HighestPrice := by
  unfold UpdateCurrentPrice
  rw [utv_HighestPrice]
  simp

lemma ucp_LowestPrice (p : Position) (price : ℚ) :
    (UpdateCurrentPrice p price).LowestPrice
      = if price < p.LowestPrice then price else p.LowestPrice := by
  unfold UpdateCurrentPrice
  rw [utv_LowestPrice]
  simp

lemma ucp_HighestValue (p : Position) (price : ℚ) :
    (UpdateCurrentPrice p price).HighestValue
      = if price * p.CurrentQuantity > p.HighestValue then price * p.CurrentQuantity
        else p.HighestValue := by
  unfold UpdateCurrentPrice
  rw [utv_HighestValue]
  simp

lemma ucp_LowestValue (p : Position) (price : ℚ) :
    (UpdateCurrentPrice p price).LowestValue
      = if price * p.CurrentQuantity < p.LowestValue then price * p.CurrentQuantity
        else p.LowestValue := by
  unfold UpdateCurrentPrice
  rw [utv_LowestValue]
  simp

lemma utv_MaxDrawdown_mono (p : Position) :
    p.MaxDrawdown ≤ (updateTrackingValues p).MaxDrawdown := by
  rw [utv_MaxDrawdown]
  dsimp only
  split_ifs with h1 h2 <;> linarith

lemma ucp_MaxDrawdown_mono (p : Position) (price : ℚ) :
    p.MaxDrawdown ≤ (UpdateCurrentPrice p price).MaxDrawdown := by
  unfold UpdateCurrentPrice
  have h := utv_MaxDrawdown_mono
    (updatePerformanceMetrics
      { p with CurrentPrice := price, CurrentValue := price * p.CurrentQuantity })
  simpa using h

lemma utv_MaxDrawdown_eq_max (p : Position)
    (h : 0 < (updateTrackingValues p).HighestValue) :
    (updateTrackingValues p).MaxDrawdown
      = max p.MaxDrawdown
          (((updateTrackingValues p).HighestValue - p.CurrentValue)
            / (updateTrackingValues p).HighestValue * 100) := by
  rw [utv_MaxDrawdown]
  rw [if_pos h]
  dsimp only
  rcases le_or_lt (((updateTrackingValues p).HighestValue - p.CurrentValue)
      / (updateTrackingValues p).HighestValue * 100) p.MaxDrawdown with hle | hlt
  · rw [if_neg (not_lt.mpr hle), max_eq_left hle]
  · rw [if_pos hlt, max_eq_right (le_of_lt hlt)]

lemma ucp_MaxDrawdown_eq_max (p : Position) (price : ℚ)
    (h : 0 < (UpdateCurrentPrice p price).HighestValue) :
    (UpdateCurrentPrice p price).MaxDrawdown
      = max p.MaxDrawdown
          (((UpdateCurrentPrice p price).HighestValue
              - (UpdateCurrentPrice p price).CurrentValue)
            / (UpdateCurrentPrice p price).HighestValue * 100) := by
  unfold UpdateCurrentPrice at h ⊢
  have h2 := utv_MaxDrawdown_eq_max
    (updatePerformanceMetrics
      { p with CurrentPrice := price, CurrentValue := price * p.CurrentQuantity }) h
  simpa using h2

lemma step_highestPrice_le (p : Position) (price : ℚ) :
    p.HighestPrice ≤ (UpdateCurrentPrice p price).HighestPrice := by
  rw [ucp_HighestPrice]
  split_ifs with h <;> linarith

lemma step_price_le_highest (p : Position) (price : ℚ) :
    price ≤ (UpdateCurrentPrice p price).HighestPrice := by
  rw [ucp_HighestPrice]
  split_ifs with h <;> linarith

lemma step_lowestPrice_le (p : Position) (price : ℚ) :
    (UpdateCurrentPrice p price).LowestPrice ≤ p.LowestPrice := by
  rw [ucp_LowestPrice]
  split_ifs with h <;> linarith

lemma step_lowest_le_price (p : Position) (price : ℚ) :
    (UpdateCurrentPrice p price).LowestPrice ≤ price := by
  rw [ucp_LowestPrice]
  split_ifs with h <;> linarith

lemma step_highestValue_le (p : Position) (price : ℚ) :
    p.HighestValue ≤ (UpdateCurrentPrice p price).HighestValue := by
  rw [ucp_HighestValue]
  split_ifs with h <;> linarith

lemma step_value_le_highest (p : Position) (price : ℚ) :
    price * p.CurrentQuantity ≤ (UpdateCurrentPrice p price).HighestValue := by
  rw [ucp_HighestValue]
  split_ifs with h <;> linarith

lemma step_lowestValue_le (p : Position) (price : ℚ) :
    (UpdateCurrentPrice p price).LowestValue ≤ p.LowestValue := by
  rw [ucp_LowestValue]
  split_ifs with h <;> linarith

lemma step_lowest_le_value (p : Position) (price : ℚ) :
    (UpdateCurrentPrice p price).LowestValue ≤ price * p.CurrentQuantity := by
  rw [ucp_LowestValue]
  split_ifs with h <;> linarith

lemma trace_highestPrice_mono (prices : List ℚ) :
    ∀ p : Position, p.HighestPrice ≤ (applyPrices p prices).HighestPrice := by
  induction prices with
  | nil => exact fun p => le_refl _
  | cons price rest ih =>
    intro p
    calc p.HighestPrice ≤ (UpdateCurrentPrice p price).HighestPrice :=
          step_highestPrice_le p price
      _ ≤ (applyPrices (UpdateCurrentPrice p price) rest).HighestPrice :=
          ih (UpdateCurrentPrice p price)

lemma trace_lowestPrice_mono (prices : List ℚ) :
    ∀ p : Position, (applyPrices p prices).LowestPrice ≤ p.LowestPrice := by
  induction prices with
  | nil => exact fun p => le_refl _
  | cons price rest ih =>
    intro p
    calc (applyPrices (UpdateCurrentPrice p price) rest).LowestPrice
        ≤ (UpdateCurrentPrice p price).LowestPrice := ih (UpdateCurrentPrice p price)
      _ ≤ p.LowestPrice := step_lowestPrice_le p price

lemma trace_highestValue_mono (prices : List ℚ) :
    ∀ p : Position, p.HighestValue ≤ (applyPrices p prices).HighestValue := by
  induction prices with
  | nil => exact fun p => le_refl _
  | cons price rest ih =>
    intro p
    calc p.HighestValue ≤ (UpdateCurrentPrice p price).HighestValue :=
          step_highestValue_le p price
      _ ≤ (applyPrices (UpdateCurrentPrice p price) rest).HighestValue :=
          ih (UpdateCurrentPrice p price)

lemma trace_lowestValue_mono (prices : List ℚ) :
    ∀ p : Position, (applyPrices p prices).LowestValue ≤ p.LowestValue := by
  induction prices with
  | nil => exact fun p => le_refl _
  | cons price rest ih =>
    intro p
    calc (applyPrices (UpdateCurrentPrice p price) rest).LowestValue
        ≤ (UpdateCurrentPrice p price).LowestValue := ih (UpdateCurrentPrice p price)
      _ ≤ p.LowestValue := step_lowestValue_le p price

lemma trace_price_bounds (prices : List ℚ) :
    ∀ (p : Position) (q : ℚ), q ∈ prices →
      q ≤ (applyPrices p prices).HighestPrice ∧
      (applyPrices p prices).LowestPrice ≤ q ∧
      q * p.CurrentQuantity ≤ (applyPrices p prices).HighestValue ∧
      (applyPrices p prices).LowestValue ≤ q * p.CurrentQuantity := by
  induction prices with
  | nil => intro p q h; simp at h
  | cons q0 rest ih =>
    intro p q hq
    have hfold : applyPrices p (q0 :: rest) = applyPrices (UpdateCurrentPrice p q0) rest := rfl
    rcases List.mem_cons.mp hq with rfl | hmem
    · refine ⟨?_, ?_, ?_, ?_⟩ <;> rw [hfold]
      · exact le_trans (step_price_le_highest p q)
          (trace_highestPrice_mono rest (UpdateCurrentPrice p q))
      · exact le_trans (trace_lowestPrice_mono rest (UpdateCurrentPrice p q))
          (step_lowest_le_price p q)
      · exact le_trans (step_value_le_highest p q)
          (trace_highestValue_mono rest (UpdateCurrentPrice p q))
      · exact le_trans (trace_lowestValue_mono rest (UpdateCurrentPrice p q))
          (step_lowest_le_value p q)
    · have h := ih (UpdateCurrentPrice p q0) q hmem
      rw [ucp_CurrentQuantity] at h
      rw [hfold]
      exact h

end ProjectionLemmas

lemma ucp_UnrealizedPnL_of_open (p : Position) (price : ℚ)
    (h : p.Status = PositionStatus.PositionStatusOpen) :
    (UpdateCurrentPrice p price).UnrealizedPnL
      = (price - p.EntryPrice) * p.CurrentQuantity := by
  unfold UpdateCurrentPrice
  rw [utv_UnrealizedPnL, upm_UnrealizedPnL_of_open]
  exact h

lemma calculateRiskScore_bounds (t : Token) :
    0 ≤ (calculateRiskScore t).RiskScore ∧ (calculateRiskScore t).RiskScore ≤ 10 := by
  unfold calculateRiskScore
  dsimp only
  constructor <;> (split_ifs with h1 h2 <;> linarith)

lemma updateRiskLevel_mono (t1 t2 : Token) (h : t1.RiskScore ≤ t2.RiskScore) :
    riskLevelIndex (updateRiskLevel t1).RiskLevel
      ≤ riskLevelIndex (updateRiskLevel t2).RiskLevel := by
  unfold updateRiskLevel
  dsimp only
  split_ifs <;> norm_num [riskLevelIndex] <;> linarith

/-- A long position freshly opened at price 100 with quantity 10. -/
def posLong100 : Position := freshPosition PositionSide.PositionSideLong 100 10

/-- The same fresh position with a 10 percent trailing stop and a stop
price of 80 already computed. -/
def posTrailing : Position :=
  { freshPosition PositionSide.PositionSideLong 100 10 with
      TrailingStop := some 10, TrailingStopPrice := some 80 }

/-- A partial exit of 4 units at price 110. -/
def exitQ4 : PartialExit :=
  { Quantity := 4, Price := 110, Value := 440, Fees := 0, PnL := 40, PnLPercent := 10 }

/-- A partial exit of exactly 10 units at price 110. -/
def exitQ10 : PartialExit :=
  { Quantity := 10, Price := 110, Value := 1100, Fees := 0, PnL := 100, PnLPercent := 10 }

/-- A partial exit of 15 units, more than the position holds. -/
def exitQ15 : PartialExit :=
  { Quantity := 15, Price := 110, Value := 1650, Fees := 0, PnL := 150, PnLPercent := 10 }

/-- A DCA entry of 5 units at price 80. -/
def dcaQ5 : DCAEntry := { Quantity := 5, Price := 80, Value := 400, Fees := 0 }

/-- A failed trade whose retry budget is exactly used up. -/
def tradeRetryExhausted : Trade :=
  { Side := TradeSide.TradeSideBuy, Status := TradeStatus.TradeStatusFailed,
    Price := 100, ExecutedPrice := 101, RetryCount := 3, MaxRetries := 3 }

/-- A failed trade with one retry left. -/
def tradeRetryable : Trade :=
  { Side := TradeSide.TradeSideBuy, Status := TradeStatus.TradeStatusFailed,
    Price := 100, ExecutedPrice := 101, RetryCount := 2, MaxRetries := 3 }

/-- A buy trade with a positive requested price and a zero executed price. -/
def tradeBuyZeroExec : Trade :=
  { Side := TradeSide.TradeSideBuy, Status := TradeStatus.TradeStatusConfirmed,
    Price := 100, ExecutedPrice := 0, RetryCount := 0, MaxRetries := 3 }

/-- A sell trade with a positive requested price and a zero executed price. -/
def tradeSellZeroExec : Trade :=
  { Side := TradeSide.TradeSideSell, Status := TradeStatus.TradeStatusConfirmed,
    Price := 100, ExecutedPrice := 0, RetryCount := 0, MaxRetries := 3 }

/-- A buy trade filled 10 percent above the requested price. -/
def tradeBuy : Trade :=
  { Side := TradeSide.TradeSideBuy, Status := TradeStatus.TradeStatusConfirmed,
    Price := 100, ExecutedPrice := 110, RetryCount := 0, MaxRetries := 3 }

/-- A token snapshot with a stored risk score of 3. -/
def tokenSafe : Token :=
  { MarketCap := 500000, LaunchAgeHours := none,
    LiquidityPools := [{ TotalLiquidity := 200 }], HolderCount := 500,
    VolatilityScore := 10,
    SecurityInfo := { HoneypotRisk := false, LiquidityLocked := true,
                      OwnershipRenounced := true, AuditStatus := AuditStatus.AuditPassed },
    SocialInfo := { SocialScore := 8 }, RiskScore := 3,
    RiskLevel := RiskLevel.RiskLevelLow }

/-- A token snapshot with a stored risk score of 8.5. -/
def tokenRisky : Token :=
  { MarketCap := 5000, LaunchAgeHours := some 3,
    LiquidityPools := [], HolderCount := 5,
    VolatilityScore := 90,
    SecurityInfo := { HoneypotRisk := true, LiquidityLocked := false,
                      OwnershipRenounced := false, AuditStatus := AuditStatus.AuditFailed },
    SocialInfo := { SocialScore := 1 }, RiskScore := 8.5,
    RiskLevel := RiskLevel.RiskLevelVeryHigh }

/-- C1 counterexample: starting from a fresh long position of 10 units, a
partial exit of 4 units followed by a DCA entry of 5 units leaves the
position in status partial while the exited quantity plus the residual is
19 and the entry quantity is 15, so the conservation equation fails; and a
full exit followed by a DCA entry leaves a closed position with a nonzero
residual quantity, so the zero-iff-closed equivalence fails too. -/
theorem C1_conservation_counterexample :
    ((applyOps posLong100 [PosOp.pexit exitQ4, PosOp.dca dcaQ5]).Status
        = PositionStatus.PositionStatusPartial ∧
      exitQuantitySum (applyOps posLong100 [PosOp.pexit exitQ4, PosOp.dca dcaQ5]).PartialExits
          + (applyOps posLong100 [PosOp.pexit exitQ4, PosOp.dca dcaQ5]).CurrentQuantity
        ≠ (applyOps posLong100 [PosOp.pexit exitQ4, PosOp.dca dcaQ5]).EntryQuantity) ∧
    ((applyOps posLong100 [PosOp.pexit exitQ10, PosOp.dca dcaQ5]).Status
        = PositionStatus.PositionStatusClosed ∧
      (applyOps posLong100 [PosOp.pexit exitQ10, PosOp.dca dcaQ5]).CurrentQuantity ≠ 0) := by
  constructor <;>
    norm_num [applyOps, applyOp, posLong100, freshPosition, AddPartialExit, AddDCAEntry,
      exitQuantitySum, exitQ4, exitQ10, dcaQ5]

/-- C1 amended: quantity conservation holds for every sequence of price
updates and positive-quantity partial exits applied to a freshly opened
position, provided no DCA entry occurs; while the position is open or
partial the exited quantity plus the residual equals the entry quantity,
and the residual is zero exactly when the position is closed.  (AddDCAEntry
resets the residual to the new total entry quantity, discarding earlier
exits, so sequences containing it violate conservation.) -/
theorem C1_quantity_conservation (side : PositionSide) (price qty : ℚ)
    (ops : List PosOp) (hqty : 0 < qty)
    (hex : ∀ e, PosOp.pexit e ∈ ops → 0 < e.Quantity)
    (hdca : ∀ entry, PosOp.dca entry ∉ ops) :
    ((applyOps (freshPosition side price qty) ops).Status
          = PositionStatus.PositionStatusOpen ∨
      (applyOps (freshPosition side price qty) ops).Status
          = PositionStatus.PositionStatusPartial →
        exitQuantitySum (applyOps (freshPosition side price qty) ops).PartialExits
            + (applyOps (freshPosition side price qty) ops).CurrentQuantity
          = (applyOps (freshPosition side price qty) ops).EntryQuantity) ∧
    ((applyOps (freshPosition side price qty) ops).CurrentQuantity = 0 ↔
      (applyOps (freshPosition side price qty) ops).Status
        = PositionStatus.PositionStatusClosed) := by
  have hinv := posInv_applyOps ops (freshPosition side price qty)
    (posInv_fresh side price qty hqty) hex hdca
  exact ⟨fun hs => (hinv.2.2 hs).2, posInv_zero_iff_closed _ hinv⟩

/-- C1 witness: the conservation statement instantiated on a fresh long
position of 10 units, a partial exit of 4 units and one price tick. -/
theorem C1_quantity_conservation_witness :
    ((applyOps (freshPosition PositionSide.PositionSideLong 100 10)
          [PosOp.pexit exitQ4, PosOp.priceTick 120]).Status
          = PositionStatus.PositionStatusOpen ∨
      (applyOps (freshPosition PositionSide.PositionSideLong 100 10)
          [PosOp.pexit exitQ4, PosOp.priceTick 120]).Status
          = PositionStatus.PositionStatusPartial →
        exitQuantitySum (applyOps (freshPosition PositionSide.PositionSideLong 100 10)
              [PosOp.pexit exitQ4, PosOp.priceTick 120]).PartialExits
            + (applyOps (freshPosition PositionSide.PositionSideLong 100 10)
                [PosOp.pexit exitQ4, PosOp.priceTick 120]).CurrentQuantity
          = (applyOps (freshPosition PositionSide.PositionSideLong 100 10)
              [PosOp.pexit exitQ4, PosOp.priceTick 120]).EntryQuantity) ∧
    ((applyOps (freshPosition PositionSide.PositionSideLong 100 10)
          [PosOp.pexit exitQ4, PosOp.priceTick 120]).CurrentQuantity = 0 ↔
      (applyOps (freshPosition PositionSide.PositionSideLong 100 10)
          [PosOp.pexit exitQ4, PosOp.priceTick 120]).Status
        = PositionStatus.PositionStatusClosed) :=
  C1_quantity_conservation PositionSide.PositionSideLong 100 10
    [PosOp.pexit exitQ4, PosOp.priceTick 120] (by norm_num)
    (by intro e he; simp at he; subst he; norm_num [exitQ4])
    (by intro entry he; simp at he)

/-- C2: each UpdateTrailingStop on an open position with a trailing-stop
percentage and an existing stop price sets the stop price to the maximum of
the existing price and current price times one minus the percentage over
100 for a long position, and to the corresponding minimum for a short
position; and for a long position, after any sequence of price updates each
followed by a trailing-stop recomputation, the stop price never decreases. -/
theorem C2_trailing_stop_ratchet :
    (∀ (p : Position) (ts old : ℚ),
        p.Status = PositionStatus.PositionStatusOpen →
        p.TrailingStop = some ts →
        p.TrailingStopPrice = some old →
        (p.Side = PositionSide.PositionSideLong →
           (UpdateTrailingStop p).TrailingStopPrice
             = some (max old (p.CurrentPrice * (1 - ts / 100)))) ∧
        (p.Side = PositionSide.PositionSideShort →
           (UpdateTrailingStop p).TrailingStopPrice
             = some (min old (p.CurrentPrice * (1 + ts / 100))))) ∧
    (∀ (p : Position) (prices : List ℚ) (old : ℚ),
        p.Side = PositionSide.PositionSideLong →
        p.TrailingStopPrice = some old →
        ∃ n, (applyPricesTrailing p prices).TrailingStopPrice = some n ∧ old ≤ n) := by
  constructor
  · intro p ts old h1 h2 h3
    exact ⟨fun hs => uts_long_eq p ts old h1 h2 h3 hs,
           fun hs => uts_short_eq p ts old h1 h2 h3 hs⟩
  · intro p prices old hside hprev
    exact trailing_trace_ratchet prices p old hside hprev

/-- C2 witness: the ratchet applied to a concrete long position with a 10
percent trailing stop and stop price 80, and to a concrete price path. -/
theorem C2_trailing_stop_ratchet_witness :
    (UpdateTrailingStop posTrailing).TrailingStopPrice
        = some (max 80 (posTrailing.CurrentPrice * (1 - 10 / 100))) ∧
    ∃ n, (applyPricesTrailing posTrailing [120, 90]).TrailingStopPrice = some n ∧
      (80 : ℚ) ≤ n :=
  ⟨(C2_trailing_stop_ratchet.1 posTrailing 10 80 rfl rfl rfl).1 rfl,
   C2_trailing_stop_ratchet.2 posTrailing [120, 90] 80 rfl rfl⟩

/-- C3 counterexample: AddPartialExit with a 15-unit exit on a 10-unit
position does not fail and does not leave the state unchanged: it appends
the exit, closes the position and zeroes the residual quantity. -/
theorem C3_no_validation_counterexample :
    (AddPartialExit posLong100 exitQ15).PartialExits ≠ posLong100.PartialExits ∧
    (AddPartialExit posLong100 exitQ15).Status = PositionStatus.PositionStatusClosed ∧
    (AddPartialExit posLong100 exitQ15).CurrentQuantity = 0 := by
  norm_num [AddPartialExit, posLong100, freshPosition, exitQ15]

/-- C3 amended: AddPartialExit performs no precondition check and cannot
fail; for every exit it appends the exit and accumulates its PnL, and then
either clamps the residual quantity and value to zero and closes the
position (when the decremented quantity is not positive) or stores the
decremented quantity, the recomputed value, and status partial. -/
theorem C3_partial_exit_behavior (p : Position) (e : PartialExit) :
    (AddPartialExit p e).PartialExits = p.PartialExits ++ [e] ∧
    (AddPartialExit p e).RealizedPnL = p.RealizedPnL + e.PnL ∧
    (p.CurrentQuantity - e.Quantity ≤ 0 →
       (AddPartialExit p e).CurrentQuantity = 0 ∧
       (AddPartialExit p e).CurrentValue = 0 ∧
       (AddPartialExit p e).Status = PositionStatus.PositionStatusClosed) ∧
    (0 < p.CurrentQuantity - e.Quantity →
       (AddPartialExit p e).CurrentQuantity = p.CurrentQuantity - e.Quantity ∧
       (AddPartialExit p e).CurrentValue
         = p.CurrentPrice * (p.CurrentQuantity - e.Quantity) ∧
       (AddPartialExit p e).Status = PositionStatus.PositionStatusPartial) := by
  refine ⟨?_, ?_, ?_, ?_⟩
  · rcases le_or_lt (p.CurrentQuantity - e.Quantity) 0 with h | h
    · rw [ape_of_clamp p e h]
    · rw [ape_of_residual p e h]
  · rcases le_or_lt (p.CurrentQuantity - e.Quantity) 0 with h | h
    · rw [ape_of_clamp p e h]
    · rw [ape_of_residual p e h]
  · intro h
    rw [ape_of_clamp p e h]
    exact ⟨rfl, rfl, rfl⟩
  · intro h
    rw [ape_of_residual p e h]
    exact ⟨rfl, rfl, rfl⟩

/-- C3 witness: the clamping branch applied to the 15-unit over-exit on the
fresh 10-unit position. -/
theorem C3_partial_exit_behavior_witness :
    (AddPartialExit posLong100 exitQ15).CurrentQuantity = 0 ∧
    (AddPartialExit posLong100 exitQ15).CurrentValue = 0 ∧
    (AddPartialExit posLong100 exitQ15).Status = PositionStatus.PositionStatusClosed :=
  (C3_partial_exit_behavior posLong100 exitQ15).2.2.1
    (by norm_num [posLong100, freshPosition, exitQ15])

/-- C4: after UpdateCurrentPrice on an open position the current value is
the price times the residual quantity and the unrealized PnL is price minus
entry price times the residual quantity; starting from a fresh position the
highest and lowest price and value trackers bound every price fed in and
the corresponding value; max drawdown never decreases across an update and,
whenever the updated peak value is positive, it equals the maximum of its
old value and the drawdown of the updated state; and the concrete long
position entered at 100 with quantity 10 fed price 85 shows unrealized PnL
of minus 150. -/
theorem C4_price_update_postconditions :
    (∀ (p : Position) (price : ℚ), p.Status = PositionStatus.PositionStatusOpen →
       (UpdateCurrentPrice p price).CurrentValue = price * p.CurrentQuantity ∧
       (UpdateCurrentPrice p price).UnrealizedPnL
         = (price - p.EntryPrice) * p.CurrentQuantity) ∧
    (∀ (side : PositionSide) (price qty : ℚ) (prices : List ℚ) (q : ℚ), q ∈ prices →
       q ≤ (applyPrices (freshPosition side price qty) prices).HighestPrice ∧
       (applyPrices (freshPosition side price qty) prices).LowestPrice ≤ q ∧
       q * qty ≤ (applyPrices (freshPosition side price qty) prices).HighestValue ∧
       (applyPrices (freshPosition side price qty) prices).LowestValue ≤ q * qty) ∧
    (∀ (p : Position) (price : ℚ),
       p.MaxDrawdown ≤ (UpdateCurrentPrice p price).MaxDrawdown ∧
       (0 < (UpdateCurrentPrice p price).HighestValue →
          (UpdateCurrentPrice p price).MaxDrawdown
            = max p.MaxDrawdown
                (((UpdateCurrentPrice p price).HighestValue
                    - (UpdateCurrentPrice p price).CurrentValue)
                  / (UpdateCurrentPrice p price).HighestValue * 100))) ∧
    (UpdateCurrentPrice (freshPosition PositionSide.PositionSideLong 100 10) 85).UnrealizedPnL
      = -150 := by
  refine ⟨?_, ?_, ?_, ?_⟩
  · intro p price h
    exact ⟨ucp_CurrentValue p price, ucp_UnrealizedPnL_of_open p price h⟩
  · intro side price qty prices q hq
    have h := trace_price_bounds prices (freshPosition side price qty) q hq
    have hfq : (freshPosition side price qty).CurrentQuantity = qty := rfl
    rw [hfq] at h
    exact h
  · intro p price
    exact ⟨ucp_MaxDrawdown_mono p price, fun h => ucp_MaxDrawdown_eq_max p price h⟩
  · norm_num [UpdateCurrentPrice, freshPosition, updatePerformanceMetrics,
      updateTrackingValues]

/-- C4 witness: the price-update postconditions instantiated on the fresh
long position at price 85, and the tracker bounds on a concrete path. -/
theorem C4_price_update_postconditions_witness :
    ((UpdateCurrentPrice posLong100 85).CurrentValue = 85 * posLong100.CurrentQuantity ∧
     (UpdateCurrentPrice posLong100 85).UnrealizedPnL
       = (85 - posLong100.EntryPrice) * posLong100.CurrentQuantity) ∧
    ((85 : ℚ) ≤ (applyPrices (freshPosition PositionSide.PositionSideLong 100 10)
        [85, 120]).HighestPrice ∧
     (applyPrices (freshPosition PositionSide.PositionSideLong 100 10)
        [85, 120]).LowestPrice ≤ 85 ∧
     (85 : ℚ) * 10 ≤ (applyPrices (freshPosition PositionSide.PositionSideLong 100 10)
        [85, 120]).HighestValue ∧
     (applyPrices (freshPosition PositionSide.PositionSideLong 100 10)
        [85, 120]).LowestValue ≤ 85 * 10) :=
  ⟨C4_price_update_postconditions.1 posLong100 85 rfl,
   C4_price_update_postconditions.2.1 PositionSide.PositionSideLong 100 10 [85, 120] 85
     (by norm_num)⟩

/-- C5: for every token the risk score computed by calculateRiskScore lies
between 0 and 10, and the six-band level mapping of updateRiskLevel is
monotonically non-decreasing in the stored risk score. -/
theorem C5_risk_score_bounds_level_mono :
    (∀ t : Token,
        0 ≤ (calculateRiskScore t).RiskScore ∧ (calculateRiskScore t).RiskScore ≤ 10) ∧
    (∀ t1 t2 : Token, t1.RiskScore ≤ t2.RiskScore →
        riskLevelIndex (updateRiskLevel t1).RiskLevel
          ≤ riskLevelIndex (updateRiskLevel t2).RiskLevel) :=
  ⟨calculateRiskScore_bounds, updateRiskLevel_mono⟩

/-- C5 witness: the bounds on a concrete safe token and the level
monotonicity between the safe token (score 3) and the risky token
(score 8.5). -/
theorem C5_risk_score_bounds_level_mono_witness :
    (0 ≤ (calculateRiskScore tokenSafe).RiskScore ∧
      (calculateRiskScore tokenSafe).RiskScore ≤ 10) ∧
    riskLevelIndex (updateRiskLevel tokenSafe).RiskLevel
      ≤ riskLevelIndex (updateRiskLevel tokenRisky).RiskLevel :=
  ⟨C5_risk_score_bounds_level_mono.1 tokenSafe,
   C5_risk_score_bounds_level_mono.2 tokenSafe tokenRisky
     (by norm_num [tokenSafe, tokenRisky])⟩

/-- C6 counterexample: a buy trade requested at 100 but with executed price
0 yields slippage 0 from the code, while the claimed formula yields minus
100; the claim quantifies over every trade with positive requested price
and so fails at this input. -/
theorem C6_slippage_counterexample :
    0 < tradeBuyZeroExec.Price ∧
    tradeBuyZeroExec.Side = TradeSide.TradeSideBuy ∧
    CalculateActualSlippage tradeBuyZeroExec = 0 ∧
    ((tradeBuyZeroExec.ExecutedPrice - tradeBuyZeroExec.Price)
        / tradeBuyZeroExec.Price) * 100 = -100 ∧
    CalculateActualSlippage tradeBuyZeroExec
      ≠ ((tradeBuyZeroExec.ExecutedPrice - tradeBuyZeroExec.Price)
          / tradeBuyZeroExec.Price) * 100 := by
  norm_num [CalculateActualSlippage, tradeBuyZeroExec]

/-- C6 amended: for every trade whose requested price is positive and whose
executed price is nonzero the slippage is the signed relative difference in
percent, with the sign flipped for sells; a zero requested price yields
slippage 0 rather than an error. -/
theorem C6_slippage_formula (t : Trade) :
    (0 < t.Price → t.ExecutedPrice ≠ 0 →
       CalculateActualSlippage t
         = if t.Side = TradeSide.TradeSideBuy then
             ((t.ExecutedPrice - t.Price) / t.Price) * 100
           else ((t.Price - t.ExecutedPrice) / t.Price) * 100) ∧
    (t.Price = 0 → CalculateActualSlippage t = 0) := by
  constructor
  · intro hp he
    unfold CalculateActualSlippage
    have hno : ¬ (t.Price = 0 ∨ t.ExecutedPrice = 0) := by
      push_neg
      exact ⟨ne_of_gt hp, he⟩
    rw [if_neg hno]
  · intro h
    unfold CalculateActualSlippage
    simp [h]

/-- C6 witness: the formula applied to the concrete buy trade filled at 110
against a requested 100 gives 10 percent slippage. -/
theorem C6_slippage_formula_witness : CalculateActualSlippage tradeBuy = 10 := by
  have h := (C6_slippage_formula tradeBuy).1 (by norm_num [tradeBuy])
    (by norm_num [tradeBuy])
  rw [h]
  norm_num [tradeBuy]

/-- C7: CanRetry holds exactly when the trade status is failed and the
retry counter is strictly below the maximum, and the concrete record with
retry count 3 of 3 cannot be retried. -/
theorem C7_can_retry :
    (∀ t : Trade, CanRetry t = true ↔
       (t.Status = TradeStatus.TradeStatusFailed ∧ t.RetryCount < t.MaxRetries)) ∧
    CanRetry tradeRetryExhausted = false := by
  constructor
  · intro t
    unfold CanRetry
    simp
  · unfold CanRetry
    norm_num [tradeRetryExhausted]

/-- C7 witness: the characterization applied to the concrete failed trade
with one retry left. -/
theorem C7_can_retry_witness : CanRetry tradeRetryable = true :=
  (C7_can_retry.1 tradeRetryable).mpr ⟨rfl, by norm_num [tradeRetryable]⟩

/-- C8: AddDCAEntry always sets the residual quantity to the new total
entry quantity, leaving the partial-exit list untouched, so quantity
removed by earlier partial exits is restored; on the concrete run a 4-unit
exit from 10 followed by a 5-unit DCA entry leaves residual quantity 15. -/
theorem C8_dca_resets_quantity :
    (∀ (p : Position) (entry : DCAEntry),
        (AddDCAEntry p entry).CurrentQuantity = p.EntryQuantity + entry.Quantity ∧
        (AddDCAEntry p entry).PartialExits = p.PartialExits) ∧
    (applyOps posLong100 [PosOp.pexit exitQ4, PosOp.dca dcaQ5]).CurrentQuantity = 15 := by
  constructor
  · exact fun p entry => ⟨rfl, rfl⟩
  · norm_num [applyOps, applyOp, posLong100, freshPosition, AddPartialExit, AddDCAEntry,
      exitQ4, dcaQ5]

/-- C9: the residual quantity stays non-negative under every modelled
position operation (for AddDCAEntry, under non-negative inputs, since it
sums the entry quantities), and an exit of at least the whole residual
clamps quantity and value to exactly zero and closes the position. -/
theorem C9_nonnegative_residual :
    (∀ (p : Position) (e : PartialExit), 0 ≤ (AddPartialExit p e).CurrentQuantity) ∧
    (∀ (p : Position) (price : ℚ),
        (UpdateCurrentPrice p price).CurrentQuantity = p.CurrentQuantity) ∧
    (∀ p : Position, (UpdateTrailingStop p).CurrentQuantity = p.CurrentQuantity) ∧
    (∀ (p : Position) (entry : DCAEntry), 0 ≤ p.EntryQuantity → 0 ≤ entry.Quantity →
        0 ≤ (AddDCAEntry p entry).CurrentQuantity) ∧
    (∀ (p : Position) (e : PartialExit), p.CurrentQuantity ≤ e.Quantity →
        (AddPartialExit p e).CurrentQuantity = 0 ∧
        (AddPartialExit p e).CurrentValue = 0 ∧
        (AddPartialExit p e).Status = PositionStatus.PositionStatusClosed) := by
  refine ⟨?_, ?_, ?_, ?_, ?_⟩
  · intro p e
    rcases le_or_lt (p.CurrentQuantity - e.Quantity) 0 with h | h
    · rw [ape_of_clamp p e h]
    · rw [ape_of_residual p e h]
      exact le_of_lt h
  · exact ucp_CurrentQuantity
  · exact uts_CurrentQuantity
  · intro p entry h1 h2
    rw [adca_CurrentQuantity]
    linarith
  · intro p e h
    rw [ape_of_clamp p e (by linarith)]
    exact ⟨rfl, rfl, rfl⟩

/-- C9 witness: an exit of exactly the whole 10-unit residual clamps the
fresh position to zero quantity and value and closes it. -/
theorem C9_nonnegative_residual_witness :
    (AddPartialExit posLong100 exitQ10).CurrentQuantity = 0 ∧
    (AddPartialExit posLong100 exitQ10).CurrentValue = 0 ∧
    (AddPartialExit posLong100 exitQ10).Status = PositionStatus.PositionStatusClosed :=
  C9_nonnegative_residual.2.2.2.2 posLong100 exitQ10
    (by norm_num [posLong100, freshPosition, exitQ10])

/-- C10: whenever the executed price of a trade is zero the computed
slippage is zero, whatever the side and the requested price, because the
division guard covers the executed price as well. -/
theorem C10_zero_executed_guard (t : Trade) (h : t.ExecutedPrice = 0) :
    CalculateActualSlippage t = 0 := by
  unfold CalculateActualSlippage
  simp [h]

/-- C10 witness: the guard applied to the concrete sell trade with executed
price zero and requested price 100. -/
theorem C10_zero_executed_guard_witness :
    CalculateActualSlippage tradeSellZeroExec = 0 :=
  C10_zero_executed_guard tradeSellZeroExec rfl
